import Mathlib

set_option maxHeartbeats 1000000
set_option maxRecDepth 100000

/-!
Verification development for the mapa-ci-ufpb repository.

The Python sources are embedded shallowly:
* machine floats are modelled by `PyFloat`: exact rationals plus the special
  values `inf`, `-inf` and `nan` (the code only ever manipulates decimal
  literals, sums, products and divisions of them, so rational arithmetic is
  exact except for the special values, which are modelled explicitly);
* code that can raise a Python exception returns `Except PyError _`;
* file and network I/O at the boundary of a function is abstracted to an
  explicit argument or to a pure reference value, as noted at each definition.
-/

attribute [local semireducible] Rat.add Rat.mul Rat.inv Rat.sub Rat.ofScientific

instance {ε α : Type} [DecidableEq ε] [DecidableEq α] : DecidableEq (Except ε α) := fun a b =>
  match a, b with
  | .ok x, .ok y => decidable_of_iff (x = y) (by simp)
  | .error e, .error f => decidable_of_iff (e = f) (by simp)
  | .ok _, .error _ => isFalse (fun hc => Except.noConfusion hc)
  | .error _, .ok _ => isFalse (fun hc => Except.noConfusion hc)

/-- Python exception kinds raised by the embedded code. -/
inductive PyError where
  | valueError
  | indexError
  | keyError
  | typeError
  | attributeError
  | zeroDivisionError
  | requestError
deriving DecidableEq

/-- Python float values: exact rationals plus `inf`, `-inf` and `nan`. -/
inductive PyFloat where
  | nan
  | pinf
  | ninf
  | num (q : ℚ)
deriving DecidableEq

/-- Python `a < b` on floats (any comparison with `nan` is `False`). -/
def pyLt : PyFloat → PyFloat → Bool
  | .nan, _ => false
  | _, .nan => false
  | .ninf, .ninf => false
  | .ninf, _ => true
  | _, .ninf => false
  | .pinf, _ => false
  | _, .pinf => true
  | .num a, .num b => decide (a < b)

/-- Python `a > b` on floats. -/
def pyGt (a b : PyFloat) : Bool := pyLt b a

/-- Python `min(a, b)`: returns `b` exactly when `b < a`. -/
def pyMin (a b : PyFloat) : PyFloat := if pyLt b a then b else a

/-- Python `max(a, b)`: returns `b` exactly when `a < b`. -/
def pyMax (a b : PyFloat) : PyFloat := if pyLt a b then b else a

/-- Python float addition; `inf + (-inf)` is `nan`. -/
def pyAdd : PyFloat → PyFloat → PyFloat
  | .nan, _ => .nan
  | _, .nan => .nan
  | .pinf, .ninf => .nan
  | .ninf, .pinf => .nan
  | .pinf, _ => .pinf
  | _, .pinf => .pinf
  | .ninf, _ => .ninf
  | _, .ninf => .ninf
  | .num a, .num b => .num (a + b)

/-- Python float negation. -/
def pyNeg : PyFloat → PyFloat
  | .nan => .nan
  | .pinf => .ninf
  | .ninf => .pinf
  | .num a => .num (-a)

/-- Python float subtraction; `inf - inf` is `nan`. -/
def pySub (a b : PyFloat) : PyFloat := pyAdd a (pyNeg b)

/-- Python float multiplication; `inf * 0.0` is `nan`. -/
def pyMul : PyFloat → PyFloat → PyFloat
  | .nan, _ => .nan
  | _, .nan => .nan
  | .pinf, .pinf => .pinf
  | .pinf, .ninf => .ninf
  | .ninf, .pinf => .ninf
  | .ninf, .ninf => .pinf
  | .pinf, .num b => if b = 0 then .nan else if 0 < b then .pinf else .ninf
  | .num a, .pinf => if a = 0 then .nan else if 0 < a then .pinf else .ninf
  | .ninf, .num b => if b = 0 then .nan else if 0 < b then .ninf else .pinf
  | .num a, .ninf => if a = 0 then .nan else if 0 < a then .ninf else .pinf
  | .num a, .num b => .num (a * b)

/-- Python `x / 2` (division by the non-zero literal 2, which never raises). -/
def pyHalf : PyFloat → PyFloat
  | .nan => .nan
  | .pinf => .pinf
  | .ninf => .ninf
  | .num a => .num (a / 2)

/-- Python float division: raises `ZeroDivisionError` on a zero divisor. -/
def pyDivE (a b : PyFloat) : Except PyError PyFloat :=
  match a, b with
  | x, .num q =>
    if q = 0 then .error .zeroDivisionError
    else
      match x with
      | .nan => .ok .nan
      | .pinf => .ok (if 0 < q then .pinf else .ninf)
      | .ninf => .ok (if 0 < q then .ninf else .pinf)
      | .num p => .ok (.num (p / q))
  | .nan, _ => .ok .nan
  | _, .nan => .ok .nan
  | .pinf, .pinf => .ok .nan
  | .pinf, .ninf => .ok .nan
  | .ninf, .pinf => .ok .nan
  | .ninf, .ninf => .ok .nan
  | .num _, .pinf => .ok (.num 0)
  | .num _, .ninf => .ok (.num 0)

/-- Python truthiness of a float: only `0.0` is falsy (`nan` and `inf` are truthy). -/
def pyTruthy : PyFloat → Bool
  | .nan => true
  | .pinf => true
  | .ninf => true
  | .num q => decide (q ≠ 0)

/-- Numeric value of an ASCII digit character. -/
def digitVal (c : Char) : Nat := c.toNat - 48

/-- Value of a string of ASCII digits, most significant first. -/
def natOfDigits (cs : List Char) : Nat := cs.foldl (fun n c => 10 * n + digitVal c) 0

/-- Every underscore in the character list is strictly between two digits
(the placement rule for underscores in Python numeric literals). -/
def underscoresOk (cs : List Char) : Bool :=
  (List.range cs.length).all fun i =>
    if cs.getD i ' ' = '_' then
      decide (0 < i) && decide (i + 1 < cs.length)
        && (cs.getD (i - 1) ' ').isDigit && (cs.getD (i + 1) ' ').isDigit
    else true

/-- Python `float(s)` on an unsigned body: digits with at most one dot, at least
one digit, underscores only between digits.  (The tokens fed to it in this
program never contain letters, so the `inf`/`nan`/exponent literal forms and
non-ASCII digits cannot occur and are not modelled.)  `none` means the call
raises `ValueError`. -/
def pythonFloatUnsigned? (cs : List Char) : Option ℚ :=
  if !cs.isEmpty && cs.all (fun c => c.isDigit || c = '.' || c = '_')
      && decide (cs.count '.' ≤ 1) && cs.any (fun c => c.isDigit) && underscoresOk cs then
    let ds := cs.filter (fun c => c ≠ '_')
    let ip := ds.takeWhile (fun c => c ≠ '.')
    let fp := (ds.dropWhile (fun c => c ≠ '.')).drop 1
    some ((natOfDigits ip : ℚ) + (natOfDigits fp : ℚ) / ((10 : ℚ) ^ fp.length))
  else none

/-- Python `float(s)`: an optional single sign followed by an unsigned body. -/
def pythonFloat? (s : String) : Option ℚ :=
  match s.data with
  | '-' :: rest => (pythonFloatUnsigned? rest).map (fun q => -q)
  | '+' :: rest => pythonFloatUnsigned? rest
  | cs => pythonFloatUnsigned? cs

/-- Splits a character list into the maximal runs of non-separator characters,
as Python's no-argument `str.split` does. -/
def splitRunsAux (isSep : Char → Bool) : List Char → List Char → List (List Char)
  | [], acc => if acc.isEmpty then [] else [acc.reverse]
  | c :: rest, acc =>
    if isSep c then
      if acc.isEmpty then splitRunsAux isSep rest []
      else acc.reverse :: splitRunsAux isSep rest []
    else splitRunsAux isSep rest (c :: acc)

def splitRuns (isSep : Char → Bool) (cs : List Char) : List String :=
  (splitRunsAux isSep cs []).map String.mk

/-- Python `str.upper()` on the ASCII strings of this program: upper-case each
character. -/
def pyUpper (s : String) : String := String.mk (s.data.map Char.toUpper)

/-- Axis-aligned bounding box as returned by `parse_svg_path`
(the four components of the Python tuple `(min_x, max_x, min_y, max_y)`). -/
structure BBox where
  minX : PyFloat
  maxX : PyFloat
  minY : PyFloat
  maxY : PyFloat
deriving DecidableEq

/-- Walks the coordinate pairs as relative deltas from the origin and expands
the box, starting from `(+inf, -inf, +inf, -inf)` — the shared loop of both
`parse_svg_path` implementations. -/
def bboxFold (ps : List (ℚ × ℚ)) : BBox :=
  let r := ps.foldl
    (fun (st : PyFloat × PyFloat × PyFloat × PyFloat × ℚ × ℚ) p =>
      match st with
      | (mnx, mxx, mny, mxy, cx, cy) =>
        let cx' := cx + p.1
        let cy' := cy + p.2
        (pyMin mnx (.num cx'), pyMax mxx (.num cx'),
         pyMin mny (.num cy'), pyMax mxy (.num cy'), cx', cy'))
    (.pinf, .ninf, .pinf, .ninf, (0 : ℚ), (0 : ℚ))
  ⟨r.1, r.2.1, r.2.2.1, r.2.2.2.1⟩

/-- Pairs up an even-length coordinate list (dangling element unreachable at
its call site, where evenness has already been enforced). -/
def toPairs : List ℚ → List (ℚ × ℚ)
  | x :: y :: rest => (x, y) :: toPairs rest
  | _ => []

/-- Pairs up a coordinate list exactly as the index loop of
`src/svg/mapa.py:parse_svg_path` does: an odd length hits `coords[i + 1]` out
of range and raises `IndexError`. -/
def toPairsStrict : List ℚ → Except PyError (List (ℚ × ℚ))
  | [] => .ok []
  | [_] => .error .indexError
  | x :: y :: rest => (toPairsStrict rest).map (fun ps => (x, y) :: ps)

namespace Mapa

/-- Tokeniser of `parse_svg_path` in `src/svg/mapa.py`: every character that is
not a digit, a dot or a minus sign is replaced by a space, then the string is
split on runs of spaces. -/
def svg_tokens (d : String) : List String :=
  splitRuns (fun c => c = ' ')
    (d.data.map (fun c => if c.isDigit || c = '.' || c = '-' then c else ' '))

/-- `list(map(float, tokens))`: the first unparseable token raises `ValueError`. -/
def float_coords (tokens : List String) : Except PyError (List ℚ) :=
  tokens.mapM (fun t =>
    match pythonFloat? t with
    | some q => Except.ok q
    | none => Except.error PyError.valueError)

/-- `parse_svg_path` from `src/svg/mapa.py`: tokenise, parse all tokens as
floats, then walk the pairs; an odd coordinate count raises `IndexError`. -/
def parse_svg_path (d : String) : Except PyError BBox := do
  let coords ← float_coords (svg_tokens d)
  let ps ← toPairsStrict coords
  return bboxFold ps

end Mapa

namespace GerarSvg

/-- Tokeniser of `parse_svg_path` in `gerar_svg.py`: ASCII letters are replaced
by spaces (the regex `[a-zA-Z]`), then the string is split on whitespace. -/
def svg_tokens (d : String) : List String :=
  splitRuns Char.isWhitespace
    (d.data.map (fun c => if ('a' ≤ c ∧ c ≤ 'z') ∨ ('A' ≤ c ∧ c ≤ 'Z') then ' ' else c))

/-- The valid numeric tokens: each token is parsed with `float` and failures
are skipped with a logged warning. -/
def valid_coords (d : String) : List ℚ :=
  (svg_tokens d).filterMap pythonFloat?

/-- `parse_svg_path` from `gerar_svg.py`: tokenise, keep the parseable tokens,
drop the last one when the count is odd (logged warning), walk the pairs. -/
def parse_svg_path (d : String) : BBox :=
  let coords := valid_coords d
  let coords := if coords.length % 2 ≠ 0 then coords.dropLast else coords
  bboxFold (toPairs coords)

end GerarSvg

/-- An icon asset loaded from disk with its `width`/`height` attributes
rewritten; the file contents are opaque to every claim, so only the asset key
and the rewritten dimensions are modelled. -/
structure IconSvg where
  name : String
  width : Int
  height : Int
deriving DecidableEq

namespace Mapa

/-- Input record of `create_path_element` (`PathSchema` in `src/svg/mapa.py`). -/
structure PathSchema where
  fill : String
  d : String
  id : String
  type : String
  title : String
  description : String
  fillOpacity : String
  fillRule : String
  stroke : String
  strokeWidth : String
  strokeLinecap : String
  strokeLinejoin : String
deriving DecidableEq

/-- `load_icon` from `src/svg/mapa.py`: resolves the asset for `type`
(`generico` when the type is empty) and rewrites its dimensions; the
file-system read is abstracted to the returned reference. -/
def load_icon (type : String) (width height : Int) : IconSvg :=
  ⟨if type = "" then "generico" else type, width, height⟩

/-- `calculate_font_size` from `src/svg/mapa.py`: the estimated text width is
`len(text) * base * 0.8`; when it exceeds `width` the size shrinks to
`width / (len(text) * 0.8)` (which raises `ZeroDivisionError` on empty text),
otherwise the base size is kept. -/
def calculate_font_size (base_font_size : PyFloat) (text : String) (width : PyFloat) :
    Except PyError PyFloat :=
  let scale_factor : PyFloat := .num (4 / 5)
  let needed_width := pyMul (pyMul (.num (text.length : ℚ)) base_font_size) scale_factor
  if pyGt needed_width width then
    pyDivE width (pyMul (.num (text.length : ℚ)) scale_factor)
  else
    .ok base_font_size

/-- The translate-and-scale transform emitted by `calculate_transform`
(the numeric content of the returned attribute string). -/
structure Transform where
  translateX : PyFloat
  translateY : PyFloat
  scale : PyFloat
deriving DecidableEq

/-- `calculate_transform` from `src/svg/mapa.py`: translate so that the SVG of
the given dimensions, scaled by `scale_factor`, is centred at `(cx, cy)`. -/
def calculate_transform (cx cy svg_width svg_height scale_factor : PyFloat) : Transform :=
  let scaled_width := pyMul svg_width scale_factor
  let scaled_height := pyMul svg_height scale_factor
  ⟨pySub cx (pyHalf scaled_width), pySub cy (pyHalf scaled_height), scale_factor⟩

/-- A rendered `<text>` element (the numeric content of the attribute string
built by `create_text`). -/
structure TextElem where
  content : String
  x : PyFloat
  y : PyFloat
  fontSize : PyFloat
deriving DecidableEq

/-- The icon group `<g transform=...>` emitted by `create_path_element`;
`icon` is `none` when the loaded icon string stayed empty (unrecognised type). -/
structure IconGroup where
  transform : Transform
  icon : Option IconSvg
deriving DecidableEq

/-- Structured form of the string returned by `create_path_element`: the path
attribute list and the optional icon group and text elements concatenated
after it. -/
structure PathOut where
  pathAttrs : List (String × String)
  iconGroup : Option IconGroup
  upperText : Option TextElem
  bottomText : Option TextElem
deriving DecidableEq

/-- The recognised room types of `create_path_element`'s if/elif chain. -/
def known_types : List String :=
  ["sala-de-aula", "sala-de-professor", "banheiro-masculino", "banheiro-feminino",
   "biblioteca", "auditorio", "laboratorio", "laboratorio-de-pesquisa", "generico"]

/-- `render_upper_text` from `create_path_element`: upper label at
`center_y - text_distance - 15` (the 15 is skipped only when the title is empty
and the type is the literal string "none"); font size 16 fitted to the width
when the title is truthy, else the string "14". -/
def render_upper_text (title : String) (center_x center_y text_distance width : PyFloat)
    (type_ : String) : Except PyError TextElem := do
  let adjusted_y :=
    pySub (pySub center_y text_distance)
      (if title = "" ∧ type_ = "none" then .num 0 else .num 15)
  let font_size ← if title ≠ "" then
      (calculate_font_size (.num 16) title width).map some
    else pure none
  let fs := match font_size with
    | some f => if pyTruthy f then f else .num 14
    | none => .num 14
  return ⟨pyUpper title, center_x, adjusted_y, fs⟩

/-- `render_bottom_text` from `create_path_element`: mirrored below the centre
with base font size 12 (default string "12"). -/
def render_bottom_text (description : String) (center_x center_y text_distance width : PyFloat)
    (type_ : String) : Except PyError TextElem := do
  let adjusted_y :=
    pyAdd (pyAdd center_y text_distance)
      (if description = "" ∧ type_ = "none" then .num 0 else .num 15)
  let font_size ← if description ≠ "" then
      (calculate_font_size (.num 12) description width).map some
    else pure none
  let fs := match font_size with
    | some f => if pyTruthy f then f else .num 12
    | none => .num 12
  return ⟨pyUpper description, center_x, adjusted_y, fs⟩

/-- `create_path_element` from `src/svg/mapa.py`.  With an empty `type` only
the plain path attributes are emitted.  Otherwise the bounding box of `d` is
computed, the icon (empty for an unrecognised type, which instead rewrites
`text_distance` to `dim * 0.15`) is placed with `calculate_transform`, and the
upper and bottom texts are always appended. -/
def create_path_element (props : PathSchema) : Except PyError PathOut := do
  if props.type = "" then
    let params := [("fill", props.fill), ("d", props.d), ("fill-rule", props.fillRule),
      ("id", props.id), ("stroke", props.stroke), ("stroke-width", props.strokeWidth),
      ("stroke-linecap", props.strokeLinecap), ("stroke-linejoin", props.strokeLinejoin)]
    return ⟨params.filter (fun kv => kv.2 ≠ ""), none, none, none⟩
  let dim : Int := 200
  let box ← parse_svg_path props.d
  let center_x := pyHalf (pyAdd box.minX box.maxX)
  let center_y := pyHalf (pyAdd box.minY box.maxY)
  let width := pySub box.maxX box.minX
  let height := pySub box.maxY box.minY
  let text_distance := pyMul height (.num (3 / 20))
  let icon_svg : Option IconSvg :=
    if props.type ∈ known_types then some (load_icon props.type dim dim) else none
  let text_distance := if props.type ∈ known_types then text_distance else .num 30
  let params := [("fill", props.fill), ("d", props.d), ("fill-rule", props.fillRule),
    ("id", if props.id ≠ "" then props.id else props.title), ("class", props.type)]
  let iconGroup : IconGroup :=
    ⟨calculate_transform center_x center_y (.num 200) (.num 200) (.num (1 / 4)), icon_svg⟩
  let upper ← render_upper_text props.title center_x center_y text_distance width props.type
  let bottom ← render_bottom_text props.description center_x center_y text_distance width props.type
  return ⟨params.filter (fun kv => kv.2 ≠ ""), some iconGroup, some upper, some bottom⟩

end Mapa

namespace GerarSvg

/-- The `Icone` dataclass of `gerar_svg.py`. -/
structure Icone where
  caminho_svg : String
  largura : Int
  altura : Int
  posicao_x : PyFloat
  posicao_y : PyFloat
deriving DecidableEq

/-- The `Texto` dataclass of `gerar_svg.py` (default font sizes 14 and 12). -/
structure Texto where
  titulo : Option String
  descricao : Option String
  posicao_x : PyFloat
  posicao_y : PyFloat
  tamanho_fonte_titulo : Int := 14
  peso_fonte_titulo : String := "bold"
  tamanho_fonte_descricao : Int := 12
deriving DecidableEq

/-- The `Sala` dataclass of `gerar_svg.py`. -/
structure Sala where
  id : String
  fill : String
  d : String
  fill_rule : String
  stroke : String
  stroke_width : String
  stroke_linecap : String
  stroke_linejoin : String
  tipo : String
  titulo : Option String
  descricao : Option String
  icone : Icone
  texto : Texto
  minX : PyFloat
  maxX : PyFloat
  minY : PyFloat
  maxY : PyFloat
deriving DecidableEq

/-- Python truthiness of an `Optional[str]`: `None` and `""` are falsy. -/
def truthyOptStr : Option String → Bool
  | none => false
  | some s => s ≠ ""

/-- A `<text>` element emitted by `gerar_elemento_svg` (numeric attributes of
the interpolated string). -/
structure GTextElem where
  content : String
  x : PyFloat
  y : PyFloat
  fontSize : Int
deriving DecidableEq

/-- The icon group emitted by `gerar_elemento_svg`: a plain translate of the
icon loaded by `carregar_svg_icone` (the file read is abstracted to the asset
path and the rewritten dimensions). -/
structure GIconGroup where
  translateX : PyFloat
  translateY : PyFloat
  icon : IconSvg
deriving DecidableEq

/-- Structured form of the string returned by `gerar_elemento_svg`. -/
structure GerarOut where
  pathAttrs : List (String × String)
  iconGroup : Option GIconGroup
  titleText : Option GTextElem
  descText : Option GTextElem
deriving DecidableEq

/-- `gerar_elemento_svg` from `gerar_svg.py`: emits the truthy path attributes;
stops there when `tipo` is falsy; otherwise adds the translated icon and, only
for a truthy title (resp. description), an upper-cased text element 15 units
above (resp. below) the text anchor. -/
def gerar_elemento_svg (sala : Sala) : GerarOut :=
  let atributos := [("fill", sala.fill), ("d", sala.d), ("fill-rule", sala.fill_rule),
    ("id", sala.id), ("stroke", sala.stroke), ("stroke-width", sala.stroke_width),
    ("stroke-linecap", sala.stroke_linecap), ("stroke-linejoin", sala.stroke_linejoin)]
  let pathAttrs := atributos.filter (fun kv => kv.2 ≠ "")
  if sala.tipo = "" then ⟨pathAttrs, none, none, none⟩
  else
    let icone := IconSvg.mk sala.icone.caminho_svg sala.icone.largura sala.icone.altura
    let iconGroup : GIconGroup := ⟨sala.icone.posicao_x, sala.icone.posicao_y, icone⟩
    let distancia_texto : PyFloat := .num 15
    let titleText : Option GTextElem :=
      match sala.titulo with
      | some t => if t ≠ "" then
          some ⟨pyUpper t, sala.texto.posicao_x, pySub sala.texto.posicao_y distancia_texto,
            sala.texto.tamanho_fonte_titulo⟩
        else none
      | none => none
    let descText : Option GTextElem :=
      match sala.descricao with
      | some t => if t ≠ "" then
          some ⟨pyUpper t, sala.texto.posicao_x, pyAdd sala.texto.posicao_y distancia_texto,
            sala.texto.tamanho_fonte_descricao⟩
        else none
      | none => none
    ⟨pathAttrs, some iconGroup, titleText, descText⟩

end GerarSvg

namespace Saci

/-- The payload of a `preferencias` entry is opaque to every claim. -/
abbrev Preferencia := String

/-- `Centro` from `src/saci.py`. -/
structure Centro where
  id : String
  centro : String
  date : String
  description : String
deriving DecidableEq

/-- `Disciplina` from `src/saci.py`. -/
structure Disciplina where
  id : Int
  codigo : String
  nome : String
  turma : String
  docente : String
  departamento : String
  horario : String
  alunos : Int
  pcd : Int
  preferencias : List Preferencia
deriving DecidableEq

/-- `Sala` from `src/saci.py`. -/
structure Sala where
  id : Int
  bloco : String
  nome : String
  capacidade : Int
  tipo : String
  acessivel : Bool
deriving DecidableEq

/-- `Alocacao` from `src/saci.py`. -/
structure Alocacao where
  centro : Centro
  sala : Sala
  disciplina : Disciplina
deriving DecidableEq

end Saci

namespace Utils

/-- Result record of `desestruturar_horario`. -/
structure Horario where
  dias : List Nat
  turno : String
  horarios : List Nat
deriving DecidableEq

/-- One step of the character loop of `desestruturar_horario`: a digit goes to
`dias` while `turno` is falsy and to `horarios` afterwards; a letter replaces
`turno`; anything else is ignored. -/
def desestruturar_step (st : List Nat × String × List Nat) (c : Char) :
    List Nat × String × List Nat :=
  match st with
  | (dias, turno, horarios) =>
    if c.isDigit then
      if turno = "" then (dias ++ [digitVal c], turno, horarios)
      else (dias, turno, horarios ++ [digitVal c])
    else if c.isAlpha then (dias, String.singleton c, horarios)
    else st

/-- `desestruturar_horario` from `src/utils.py` (the schedule codes are ASCII,
so ASCII `isdigit`/`isalpha` are used). -/
def desestruturar_horario (elemento : String) : Horario :=
  let r := elemento.data.foldl desestruturar_step ([], "", [])
  ⟨r.1, r.2.1, r.2.2⟩

end Utils

namespace Terminal

open Saci Utils

/-- The `dias_semana` dictionary of `exibir_hierarquia` in `terminal.py`. -/
def dias_semana : List (Nat × String) :=
  [(1, "Domingo"), (2, "Segunda-feira"), (3, "Terça-feira"), (4, "Quarta-feira"),
   (5, "Quinta-feira"), (6, "Sexta-feira"), (7, "Sábado")]

/-- The `turnos` name dictionary of `exibir_hierarquia`. -/
def turnos_nomes : List (String × String) :=
  [("M", "Manhã"), ("T", "Tarde"), ("N", "Noite"), ("E", "Especial")]

/-- The `turnos` base-hour dictionary of `exibir_hierarquia` (string values,
converted with `int` at the use site). -/
def turnos_base : List (String × String) :=
  [("M", "6"), ("T", "12"), ("N", "18"), ("E", "0")]

/-- Python `d[k]`: a missing key raises `KeyError`. -/
def dictGet {α β : Type} [DecidableEq α] (d : List (α × β)) (k : α) : Except PyError β :=
  match d.lookup k with
  | some v => .ok v
  | none => .error .keyError

/-- Python `int(s)` restricted to the unsigned decimal literals stored in
`turnos_base`. -/
def pythonInt (s : String) : Except PyError Nat :=
  if !s.isEmpty && s.data.all Char.isDigit then .ok (natOfDigits s.data)
  else .error .valueError

/-- One leaf row of the tree printed by `exibir_hierarquia`: the day and shift
labels resolved through the dictionaries plus the computed hour. -/
structure Entry where
  dia : Nat
  diaNome : String
  turno : String
  turnoNome : String
  hora : Nat
  disciplina : Disciplina
deriving DecidableEq

/-- The condition under which `exibir_hierarquia` attaches a discipline to the
slot `(dia, turno, horario)`. -/
def slotMatches (dia : Nat) (turno : String) (horario : Nat) (d : Disciplina) : Bool :=
  let hr := desestruturar_horario d.horario
  decide (dia ∈ hr.dias) && decide (turno = hr.turno) && decide (horario ∈ hr.horarios)

/-- The slot triples in the nested-loop order of `exibir_hierarquia`:
days 1..7, then shifts in the literal list order M, T, N, E, then hours 1..6. -/
def slots : List (Nat × String × Nat) :=
  (List.range' 1 7).flatMap fun dia =>
    ["M", "T", "N", "E"].flatMap fun turno =>
      (List.range' 1 6).map fun horario => (dia, turno, horario)

/-- The dictionary lookups and `int` conversion that `exibir_hierarquia`
performs when it adds the day node, the shift node and a leaf row for the slot
`(dia, turno)` (each lookup can raise `KeyError`, the conversion `ValueError`). -/
def slot_labels (dia : Nat) (turno : String) : Except PyError (String × String × Nat) := do
  let diaNome ← dictGet dias_semana dia
  let turnoNome ← dictGet turnos_nomes turno
  let baseStr ← dictGet turnos_base turno
  let base ← pythonInt baseStr
  return (diaNome, turnoNome, base)

/-- Builds the leaf row for one matching discipline of one slot. -/
def buildEntry (dia : Nat) (turno : String) (horario : Nat) (d : Disciplina) :
    Except PyError Entry :=
  (slot_labels dia turno).map (fun l => ⟨dia, l.1, turno, l.2.1, l.2.2 + horario, d⟩)

/-- The leaf rows of `exibir_hierarquia` for one room's discipline list, in
display order; the tree structure above the leaves carries no further data. -/
def exibir_hierarquia_entries (disciplinas : List Disciplina) : Except PyError (List Entry) :=
  slots.foldlM
    (fun acc slot =>
      disciplinas.foldlM
        (fun acc d =>
          if slotMatches slot.1 slot.2.1 slot.2.2 d then do
            let e ← buildEntry slot.1 slot.2.1 slot.2.2 d
            pure (acc ++ [e])
          else pure acc)
        acc)
    []

/-- The leaf rows contributed by one slot. -/
def slotEntries (disciplinas : List Disciplina) (slot : Nat × String × Nat) : List Entry :=
  disciplinas.filterMap fun d =>
    if slotMatches slot.1 slot.2.1 slot.2.2 d then
      match buildEntry slot.1 slot.2.1 slot.2.2 d with
      | .ok e => some e
      | .error _ => none
    else none

/-- Pure form of the leaf rows (proved below to agree with
`exibir_hierarquia_entries`, which never raises). -/
def entries_pure (disciplinas : List Disciplina) : List Entry :=
  slots.flatMap (slotEntries disciplinas)

/-- Modelled from the spec: the shift-priority mapping `{M:1, T:2, N:3, E:4}`
against which the displayed order is compared. -/
def spec_shift_priority : String → Option Nat :=
  fun t => ([("M", 1), ("T", 2), ("N", 3), ("E", 4)] : List (String × Nat)).lookup t

/-- The sort key the spec prescribes for a leaf row: day, then shift priority,
then hour. -/
def entryKey (e : Entry) : Nat × Nat × Nat :=
  (e.dia, (spec_shift_priority e.turno).getD 0, e.hora)

/-- Lexicographic strict order on the sort keys. -/
def lexLt (x y : Nat × Nat × Nat) : Prop :=
  x.1 < y.1 ∨ (x.1 = y.1 ∧ (x.2.1 < y.2.1 ∨ (x.2.1 = y.2.1 ∧ x.2.2 < y.2.2)))

/-- Lexicographic weak order on the sort keys. -/
def lexLe (x y : Nat × Nat × Nat) : Prop :=
  x.1 < y.1 ∨ (x.1 = y.1 ∧ (x.2.1 < y.2.1 ∨ (x.2.1 = y.2.1 ∧ x.2.2 ≤ y.2.2)))

instance (x y : Nat × Nat × Nat) : Decidable (lexLt x y) := by
  unfold lexLt
  infer_instance

instance (x y : Nat × Nat × Nat) : Decidable (lexLe x y) := by
  unfold lexLe
  infer_instance

/-- The spec sort key of every leaf row a slot can contribute. -/
def slotSpecKey (slot : Nat × String × Nat) : Nat × Nat × Nat :=
  (slot.1, (spec_shift_priority slot.2.1).getD 0,
   (match slot_labels slot.1 slot.2.1 with
    | .ok l => l.2.2
    | .error _ => 0) + slot.2.2)

end Terminal

namespace Utils

open Saci

/-- The possible outcomes of the one `httpx.get` call, made explicit: a parsed
JSON body, a non-2xx response (so `raise_for_status` raises
`httpx.HTTPStatusError`), or a transport failure (an `httpx.RequestError` such
as `httpx.ConnectError`, which is not an `HTTPStatusError`). -/
inductive FetchOutcome (α : Type) where
  | success (body : α)
  | httpStatusError
  | networkError
deriving DecidableEq

/-- A `classes` item of the feed JSON: each field is `none` when the key is
absent; `preferencias` distinguishes an absent key from a JSON `null` value. -/
structure ClasseDict where
  id : Option Int
  codigo : Option String
  nome : Option String
  turma : Option String
  docente : Option String
  departamento : Option String
  horario : Option String
  alunos : Option Int
  pcd : Option Int
  preferencias : Option (Option (List Preferencia))
deriving DecidableEq

/-- A `solution` item (a room) of the feed JSON. -/
structure SalaDict where
  id : Option Int
  bloco : Option String
  nome : Option String
  capacidade : Option Int
  tipo : Option String
  acessivel : Option Bool
  classes : Option (List ClasseDict)
deriving DecidableEq

/-- The wrapper object stored under the top-level `solution` key. -/
structure ConteudoDict where
  solution : Option (List SalaDict)
deriving DecidableEq

/-- The top-level feed JSON object. -/
structure PaasDict where
  id : Option String
  centro : Option String
  date : Option String
  description : Option String
  solution : Option ConteudoDict
deriving DecidableEq

/-- The empty dictionary `{}`. -/
def emptyPaasDict : PaasDict := ⟨none, none, none, none, none⟩

/-- Python `d["k"]` on the modelled dictionaries. -/
def getKey {α : Type} : Option α → Except PyError α
  | some v => .ok v
  | none => .error .keyError

/-- `baixar_json` from `src/utils.py`: the `try` block catches only
`httpx.HTTPStatusError` (returning `{}`), so a transport-level
`httpx.RequestError` propagates out of the function. -/
def baixar_json (outcome : FetchOutcome PaasDict) : Except PyError PaasDict :=
  match outcome with
  | .success body => .ok body
  | .httpStatusError => .ok emptyPaasDict
  | .networkError => .error .requestError

/-- The inner loop of `descarregar_conteudo` over one room's `classes` list. -/
def descarregar_classes (centro : Centro) (sala : Sala) (items : List ClasseDict)
    (acc : List Alocacao) : Except PyError (List Alocacao) :=
  items.foldlM
    (fun acc item => do
      let prefsField ← getKey item.preferencias
      let preferencias := match prefsField with
        | some l => l
        | none => []
      let idv ← getKey item.id
      let codigo ← getKey item.codigo
      let nome ← getKey item.nome
      let turma ← getKey item.turma
      let docente ← getKey item.docente
      let departamento ← getKey item.departamento
      let horario ← getKey item.horario
      let alunos ← getKey item.alunos
      let pcd ← getKey item.pcd
      let disciplina : Disciplina :=
        ⟨idv, codigo.trim, nome.trim, turma.trim, docente.trim, departamento.trim,
         horario.trim, alunos, pcd, preferencias⟩
      pure (acc ++ [Alocacao.mk centro sala disciplina]))
    acc

/-- `descarregar_conteudo` from `src/utils.py`: downloads the JSON with
`baixar_json` and builds the `Alocacao` list, indexing the dictionary with
plain `[]` accesses throughout. -/
def descarregar_conteudo (outcome : FetchOutcome PaasDict) : Except PyError (List Alocacao) := do
  let dados_json ← baixar_json outcome
  let idv ← getKey dados_json.id
  let centrov ← getKey dados_json.centro
  let datev ← getKey dados_json.date
  let descriptionv ← getKey dados_json.description
  let centro : Centro := ⟨idv.trim, centrov.trim, datev.trim, descriptionv.trim⟩
  let conteudo ← getKey dados_json.solution
  let sols ← getKey conteudo.solution
  sols.foldlM
    (fun acc solution => do
      let salaId ← getKey solution.id
      let bloco ← getKey solution.bloco
      let nome ← getKey solution.nome
      let capacidade ← getKey solution.capacidade
      let tipo ← getKey solution.tipo
      let acessivel ← getKey solution.acessivel
      let sala : Sala := ⟨salaId, bloco.trim, nome.trim, capacidade, tipo.trim, acessivel⟩
      let classes ← getKey solution.classes
      descarregar_classes centro sala classes acc)
    []

end Utils

namespace Operacoes

open Saci

/-- Python truthiness of an `Optional[str]` argument: `None` and `""` are falsy. -/
def truthyStr : Option String → Bool
  | none => false
  | some s => s ≠ ""

/-- Python truthiness of an `Optional[int]` argument: `None` and `0` are falsy. -/
def truthyInt : Option Int → Bool
  | none => false
  | some n => n ≠ 0

/-- The `sorted(..., key=lambda disc: getattr(disc, ordenar_por))` branch of
`filtrar`: `getattr` on an `Alocacao` only succeeds for its three field names
(`AttributeError` otherwise, raised at the first key computation), and the
pydantic models carry no ordering, so the first element comparison raises
`TypeError`; `sorted` compares nothing on lists of fewer than two elements. -/
def sortedByAttr (l : List Alocacao) (attr : String) : Except PyError (List Alocacao) :=
  match l with
  | [] => .ok []
  | [a] =>
    if attr = "centro" ∨ attr = "sala" ∨ attr = "disciplina" then .ok [a]
    else .error .attributeError
  | _ =>
    if attr = "centro" ∨ attr = "sala" ∨ attr = "disciplina" then .error .typeError
    else .error .attributeError

/-- `filtrar` from `src/operacoes.py`: each criterion narrows the list only
when the argument is truthy, then the optional `ordenar_por` sort is applied. -/
def filtrar (alocacoes : List Alocacao) (docente departamento horario : Option String)
    (min_alunos max_alunos : Option Int) (ordenar_por : Option String) :
    Except PyError (List Alocacao) :=
  let r := alocacoes
  let r := match docente with
    | some s => if s ≠ "" then r.filter (fun a => a.disciplina.docente = s) else r
    | none => r
  let r := match departamento with
    | some s => if s ≠ "" then r.filter (fun a => a.disciplina.departamento = s) else r
    | none => r
  let r := match horario with
    | some s => if s ≠ "" then r.filter (fun a => a.disciplina.horario = s) else r
    | none => r
  let r := match min_alunos with
    | some n => if n ≠ 0 then r.filter (fun a => decide (n ≤ a.disciplina.alunos)) else r
    | none => r
  let r := match max_alunos with
    | some n => if n ≠ 0 then r.filter (fun a => decide (a.disciplina.alunos ≤ n)) else r
    | none => r
  match ordenar_por with
  | some s => if s ≠ "" then sortedByAttr r s else .ok r
  | none => .ok r

end Operacoes

/-- Whether a Python float is a finite number. -/
def isFinite : PyFloat → Bool
  | .num _ => true
  | _ => false

/-- A room record with an unrecognised non-empty type, an empty title and an
empty description over a small valid triangle path. -/
def propsEmptyLabels : Mapa.PathSchema :=
  ⟨"", "m0,0 l10,0 l0,10", "", "xyz", "", "", "", "", "", "", "", ""⟩

/-- A room record with an unrecognised non-empty type and empty path data,
the degenerate-bounding-box case. -/
def propsEmptyPath : Mapa.PathSchema :=
  ⟨"", "", "", "xyz", "A", "B", "", "", "", "", "", ""⟩

/-- A discipline whose schedule code carries the unknown shift letter `X`. -/
def discUnknownShift : Saci.Disciplina :=
  ⟨1, "COD1", "Nome", "01", "Docente", "Dep", "2X3", 10, 0, []⟩

/-- A room record for `gerar_elemento_svg` whose title is the empty string and
whose description is absent. -/
def salaEmptyTitle : GerarSvg.Sala :=
  ⟨"s1", "red", "m0,0 l10,0", "", "", "", "", "", "sala-de-aula", some "", none,
   ⟨"assets/icones/saladeaula.svg", 40, 40, .num 30, .num 30⟩,
   ⟨some "", none, .num 50, .num 50, 14, "bold", 12⟩,
   .num 0, .num 100, .num 0, .num 100⟩

/-- Claim C1: the mapa.py implementation on three valid tokens — the odd count
reaches `coords[i + 1]` out of range. -/
theorem C1_counterexample :
    Mapa.float_coords (Mapa.svg_tokens "1 2 3") = .ok [1, 2, 3] ∧
    Mapa.parse_svg_path "1 2 3" = .error .indexError := by
  constructor <;> decide

/-- Claim C1 (amended): `parse_svg_path` of `gerar_svg.py` is total (it returns
a `BBox`, never an exception) and, whenever the count of valid numeric tokens
is odd, it returns the box of the tokens with the last one discarded. -/
theorem C1_gerar_parse_svg_path_odd_drops_last (d : String)
    (h : Odd (GerarSvg.valid_coords d).length) :
    GerarSvg.parse_svg_path d = bboxFold (toPairs (GerarSvg.valid_coords d).dropLast) := by
  have h1 : (GerarSvg.valid_coords d).length % 2 = 1 := Nat.odd_iff.mp h
  simp [GerarSvg.parse_svg_path, h1]

/-- Witness for C1: the path string `"1 2 3"` has three valid tokens and its
box is the one of the even prefix `[1, 2]`. -/
theorem C1_witness :
    Odd (GerarSvg.valid_coords "1 2 3").length ∧
    GerarSvg.parse_svg_path "1 2 3"
      = bboxFold (toPairs (GerarSvg.valid_coords "1 2 3").dropLast) := by
  have hlen : (GerarSvg.valid_coords "1 2 3").length = 3 := by rfl
  have hodd : Odd (GerarSvg.valid_coords "1 2 3").length := by
    rw [hlen]
    exact ⟨1, by norm_num⟩
  exact ⟨hodd, C1_gerar_parse_svg_path_odd_drops_last "1 2 3" hodd⟩

/-- Claim C2: the degenerate box is indeed returned for the empty path, but the
layout caller does not skip placement — `create_path_element` emits the icon
group and both text elements with `nan` and `-inf` coordinates. -/
theorem C2_counterexample :
    Mapa.parse_svg_path propsEmptyPath.d = .ok ⟨.pinf, .ninf, .pinf, .ninf⟩ ∧
    Mapa.create_path_element propsEmptyPath
      = .ok ⟨[("id", "A"), ("class", "xyz")],
             some ⟨⟨.nan, .nan, .num (1 / 4)⟩, none⟩,
             some ⟨"A", .nan, .nan, .ninf⟩,
             some ⟨"B", .nan, .nan, .ninf⟩⟩ := by
  constructor <;> decide

/-- Claim C2 (amended): empty and fully-invalid path data yield the degenerate
box `(+inf, -inf, +inf, -inf)` in both implementations, but the caller emits
icon and text placement anyway, with non-finite coordinates in the output. -/
theorem C2_degenerate_box_not_detected :
    Mapa.parse_svg_path "" = .ok ⟨.pinf, .ninf, .pinf, .ninf⟩ ∧
    Mapa.parse_svg_path "xyz ," = .ok ⟨.pinf, .ninf, .pinf, .ninf⟩ ∧
    GerarSvg.parse_svg_path "" = ⟨.pinf, .ninf, .pinf, .ninf⟩ ∧
    (Mapa.create_path_element propsEmptyPath).toOption.bind Mapa.PathOut.iconGroup
      = some ⟨⟨.nan, .nan, .num (1 / 4)⟩, none⟩ ∧
    (Mapa.create_path_element propsEmptyPath).toOption.bind Mapa.PathOut.upperText
      = some ⟨"A", .nan, .nan, .ninf⟩ ∧
    isFinite PyFloat.nan = false ∧ isFinite PyFloat.ninf = false := by
  refine ⟨by decide, by decide, by decide, by decide, by decide, by decide, by decide⟩

/-- Claim C6: for a room with non-empty type and empty title and description,
`create_path_element` still emits both text elements, with empty content. -/
theorem C6_counterexample :
    Mapa.create_path_element propsEmptyLabels
      = .ok ⟨[("d", "m0,0 l10,0 l0,10"), ("class", "xyz")],
             some ⟨⟨.num (-20), .num (-20), .num (1 / 4)⟩, none⟩,
             some ⟨"", .num 5, .num (-40), .num 14⟩,
             some ⟨"", .num 5, .num 50, .num 12⟩⟩ := by
  decide

/-- Claim C6 (amended): `gerar_elemento_svg` omits the title (resp. the
description) text element whenever that field is falsy (absent or empty). -/
theorem C6_gerar_omits_empty_labels (sala : GerarSvg.Sala) :
    (GerarSvg.truthyOptStr sala.titulo = false →
      (GerarSvg.gerar_elemento_svg sala).titleText = none) ∧
    (GerarSvg.truthyOptStr sala.descricao = false →
      (GerarSvg.gerar_elemento_svg sala).descText = none) := by
  constructor
  · intro h
    unfold GerarSvg.gerar_elemento_svg
    by_cases htipo : sala.tipo = ""
    · simp [htipo]
    · simp only [htipo, if_neg htipo]
      cases hti : sala.titulo with
      | none => simp
      | some t =>
        rw [hti] at h
        have ht : t = "" := by simpa [GerarSvg.truthyOptStr] using h
        simp [ht]
  · intro h
    unfold GerarSvg.gerar_elemento_svg
    by_cases htipo : sala.tipo = ""
    · simp [htipo]
    · simp only [htipo, if_neg htipo]
      cases hde : sala.descricao with
      | none => simp
      | some t =>
        rw [hde] at h
        have ht : t = "" := by simpa [GerarSvg.truthyOptStr] using h
        simp [ht]

/-- Witness for C6: a concrete room whose title is `""` and whose description
is absent gets neither text element. -/
theorem C6_witness :
    GerarSvg.truthyOptStr salaEmptyTitle.titulo = false ∧
    GerarSvg.truthyOptStr salaEmptyTitle.descricao = false ∧
    (GerarSvg.gerar_elemento_svg salaEmptyTitle).titleText = none ∧
    (GerarSvg.gerar_elemento_svg salaEmptyTitle).descText = none := by
  refine ⟨rfl, rfl, ?_, ?_⟩
  · exact (C6_gerar_omits_empty_labels salaEmptyTitle).1 rfl
  · exact (C6_gerar_omits_empty_labels salaEmptyTitle).2 rfl

/-- Claim C7: `calculate_font_size` keeps the base size when
`len(text) * base * 0.8` does not exceed the width and otherwise returns
`width / (len(text) * 0.8)`; in particular the two reference examples hold. -/
theorem C7_calculate_font_size :
    (∀ (b w : ℚ) (t : String), t.length ≠ 0 →
      (¬ ((t.length : ℚ) * b * (4 / 5) > w) →
        Mapa.calculate_font_size (.num b) t (.num w) = .ok (.num b)) ∧
      (((t.length : ℚ) * b * (4 / 5) > w) →
        Mapa.calculate_font_size (.num b) t (.num w)
          = .ok (.num (w / ((t.length : ℚ) * (4 / 5)))))) ∧
    Mapa.calculate_font_size (.num 16) "A" (.num 1000) = .ok (.num 16) ∧
    Mapa.calculate_font_size (.num 16) "VERY LONG TITLE TEXT" (.num 10)
      = .ok (.num (5 / 8)) ∧ (5 / 8 : ℚ) < 16 := by
  refine ⟨?_, by decide, by decide, by norm_num⟩
  intro b w t ht
  have hlen : ((t.length : ℚ)) * (4 / 5) ≠ 0 := by
    have : (t.length : ℚ) ≠ 0 := Nat.cast_ne_zero.mpr ht
    intro hc
    rcases mul_eq_zero.mp hc with h1 | h1
    · exact this h1
    · norm_num at h1
  constructor
  · intro h
    simp only [Mapa.calculate_font_size, pyMul, pyGt, pyLt]
    rw [if_neg]
    simp only [decide_eq_true_eq]
    intro hc
    exact h hc
  · intro h
    simp only [Mapa.calculate_font_size, pyMul, pyGt, pyLt]
    rw [if_pos (by simp only [decide_eq_true_eq]; exact h)]
    simp only [pyDivE]
    rw [if_neg hlen]

/-- Witness for C7: the long-title example instantiates the general branch
statement. -/
theorem C7_witness :
    Mapa.calculate_font_size (.num 16) "VERY LONG TITLE TEXT" (.num 10)
      = .ok (.num (10 / ((("VERY LONG TITLE TEXT".length : ℚ)) * (4 / 5)))) := by
  exact (C7_calculate_font_size.1 16 10 "VERY LONG TITLE TEXT" (by decide)).2 (by decide)

/-- Claim C8: `calculate_transform` translates each axis to
`center - dimension * scale / 2`; for the box `(0,0)-(100,100)` (centre 50,50)
with base dimension 200 and scale 0.25 the icon origin lands at `(25, 25)` and
the scaled 50-unit icon is centred at `(50, 50)`. -/
theorem C8_calculate_transform :
    (∀ cx cy w h s : ℚ,
      Mapa.calculate_transform (.num cx) (.num cy) (.num w) (.num h) (.num s)
        = ⟨.num (cx - w * s / 2), .num (cy - h * s / 2), .num s⟩) ∧
    pyHalf (pyAdd (.num 0) (.num 100)) = .num 50 ∧
    pyMul (.num 200) (.num (1 / 4)) = .num 50 ∧
    Mapa.calculate_transform (.num 50) (.num 50) (.num 200) (.num 200) (.num (1 / 4))
      = ⟨.num 25, .num 25, .num (1 / 4)⟩ ∧
    (25 : ℚ) + 50 / 2 = 50 := by
  refine ⟨?_, by decide, by decide, by decide, by norm_num⟩
  intro cx cy w h s
  simp only [Mapa.calculate_transform, pyMul, pyHalf, pySub, pyNeg, pyAdd,
    Mapa.Transform.mk.injEq, PyFloat.num.injEq]
  refine ⟨by ring, by ring, by trivial⟩

/-- Claim C9: the fetch boundary does leak failures — a transport-level
network error propagates out of `baixar_json` (only `HTTPStatusError` is
caught), and after a non-2xx response the empty dictionary makes
`descarregar_conteudo` raise `KeyError` instead of returning an empty list. -/
theorem C9_fetch_failure_crashes :
    Utils.baixar_json (.networkError) = .error .requestError ∧
    Utils.baixar_json (.httpStatusError) = .ok Utils.emptyPaasDict ∧
    Utils.descarregar_conteudo (.httpStatusError) = .error .keyError := by
  refine ⟨rfl, rfl, rfl⟩

/-- Claim C10: `filtrar` with every criterion absent is the identity, and zero
bounds for `min_alunos`/`max_alunos` are treated exactly as absent. -/
theorem C10_filtrar_identity (alocacoes : List Saci.Alocacao) :
    Operacoes.filtrar alocacoes none none none none none none = .ok alocacoes ∧
    Operacoes.filtrar alocacoes none none none (some 0) (some 0) none = .ok alocacoes := by
  constructor <;> rfl

/-- An ASCII digit is never alphabetic. -/
theorem char_isDigit_isAlpha_false {c : Char} (h : c.isDigit = true) : c.isAlpha = false := by
  simp only [Char.isDigit, Char.isAlpha, Char.isUpper, Char.isLower,
    Bool.and_eq_true, Bool.or_eq_false_iff, Bool.and_eq_false_iff,
    decide_eq_true_eq, decide_eq_false_iff_not, ge_iff_le, not_le] at *
  obtain ⟨h1, h2⟩ := h
  have h2' : c.val.toNat ≤ 57 := h2
  have e65 : (65 : UInt32).toNat = 65 := rfl
  have e97 : (97 : UInt32).toNat = 97 := rfl
  constructor
  · left
    intro hle
    have : (65 : UInt32).toNat ≤ c.val.toNat := hle
    omega
  · left
    intro hle
    have : (97 : UInt32).toNat ≤ c.val.toNat := hle
    omega

/-- An alphabetic character is never an ASCII digit. -/
theorem char_isAlpha_isDigit_false {c : Char} (h : c.isAlpha = true) : c.isDigit = false := by
  by_cases hd : c.isDigit = true
  · rw [char_isDigit_isAlpha_false hd] at h
    exact absurd h (by simp)
  · simpa using hd

/-- The one-character string is never empty. -/
theorem string_singleton_ne_empty (c : Char) : String.singleton c ≠ "" := by
  intro h
  have := congrArg String.data h
  simp [String.singleton] at this

/-- Folding `Option.elim` through a cons for the last-letter computation. -/
theorem getLast_elim_cons (c : Char) (l : List Char) (t : String) :
    ((c :: l).getLast?).elim t String.singleton
      = (l.getLast?).elim (String.singleton c) String.singleton := by
  cases l with
  | nil => rfl
  | cons x xs =>
    rw [List.getLast?_cons_cons]
    cases h : (x :: xs).getLast? with
    | none =>
      have : (x :: xs).getLast?.isSome := List.getLast?_isSome.mpr (by simp)
      rw [h] at this
      simp at this
    | some y => simp

/-- After the shift has become non-empty, the character loop of
`desestruturar_horario` keeps `dias`, routes every further digit to
`horarios`, and lets every further letter overwrite the shift. -/
theorem desestruturar_fold_phase2 (cs : List Char) :
    ∀ (dias hs : List Nat) (t : String), t ≠ "" →
      cs.foldl Utils.desestruturar_step (dias, t, hs)
        = (dias,
           ((cs.filter Char.isAlpha).getLast?).elim t String.singleton,
           hs ++ (cs.filter Char.isDigit).map digitVal) := by
  induction cs with
  | nil =>
    intro dias hs t ht
    simp
  | cons c cs ih =>
    intro dias hs t ht
    rw [List.foldl_cons]
    by_cases hd : c.isDigit = true
    · have ha := char_isDigit_isAlpha_false hd
      have hstep : Utils.desestruturar_step (dias, t, hs) c = (dias, t, hs ++ [digitVal c]) := by
        simp [Utils.desestruturar_step, hd, ht]
      rw [hstep, ih _ _ _ ht]
      simp [List.filter_cons, hd, ha]
    · by_cases ha : c.isAlpha = true
      · have hstep : Utils.desestruturar_step (dias, t, hs) c
            = (dias, String.singleton c, hs) := by
          simp [Utils.desestruturar_step, hd, ha]
        rw [hstep, ih _ _ _ (string_singleton_ne_empty c)]
        simp only [List.filter_cons, ha, if_pos, hd, Bool.false_eq_true, if_neg,
          not_false_eq_true, getLast_elim_cons]
      · have hstep : Utils.desestruturar_step (dias, t, hs) c = (dias, t, hs) := by
          simp [Utils.desestruturar_step, hd, ha]
        rw [hstep, ih _ _ _ ht]
        simp [List.filter_cons, hd, ha]

/-- Full characterisation of the character loop of `desestruturar_horario`
from the initial empty-shift state: days are the digits before the first
letter, the shift is the last letter, hours are the digits after the first
letter. -/
theorem desestruturar_fold_phase1 (cs : List Char) :
    ∀ (dias hs : List Nat),
      cs.foldl Utils.desestruturar_step (dias, "", hs)
        = (dias ++ ((cs.takeWhile (fun c => !c.isAlpha)).filter Char.isDigit).map digitVal,
           ((cs.filter Char.isAlpha).getLast?).elim "" String.singleton,
           hs ++ (((cs.dropWhile (fun c => !c.isAlpha)).drop 1).filter Char.isDigit).map digitVal) := by
  induction cs with
  | nil =>
    intro dias hs
    simp
  | cons c cs ih =>
    intro dias hs
    rw [List.foldl_cons]
    by_cases ha : c.isAlpha = true
    · have hd := char_isAlpha_isDigit_false ha
      have hstep : Utils.desestruturar_step (dias, "", hs) c
          = (dias, String.singleton c, hs) := by
        simp [Utils.desestruturar_step, hd, ha]
      rw [hstep, desestruturar_fold_phase2 cs _ _ _ (string_singleton_ne_empty c)]
      simp [List.takeWhile_cons, List.dropWhile_cons, ha, hd, List.filter_cons,
        getLast_elim_cons]
    · by_cases hd : c.isDigit = true
      · have hstep : Utils.desestruturar_step (dias, "", hs) c
            = (dias ++ [digitVal c], "", hs) := by
          simp [Utils.desestruturar_step, hd]
        rw [hstep, ih]
        simp [List.takeWhile_cons, List.dropWhile_cons, ha, hd, List.filter_cons]
      · have hstep : Utils.desestruturar_step (dias, "", hs) c = (dias, "", hs) := by
          simp [Utils.desestruturar_step, hd, ha]
        rw [hstep, ih]
        simp [List.takeWhile_cons, List.dropWhile_cons, ha, hd, List.filter_cons]

/-- Claim C3: the two reference examples of the schedule-code decoder, and the
general day/hour split — digits before the first letter land in `dias` and
digits after it land in `horarios`, in order of appearance. -/
theorem C3_desestruturar_examples_and_split :
    Utils.desestruturar_horario "35T45" = ⟨[3, 5], "T", [4, 5]⟩ ∧
    Utils.desestruturar_horario "2M2345" = ⟨[2], "M", [2, 3, 4, 5]⟩ ∧
    ∀ s : String,
      (Utils.desestruturar_horario s).dias
        = ((s.data.takeWhile (fun c => !c.isAlpha)).filter Char.isDigit).map digitVal ∧
      (Utils.desestruturar_horario s).horarios
        = (((s.data.dropWhile (fun c => !c.isAlpha)).drop 1).filter Char.isDigit).map digitVal := by
  refine ⟨by decide, by decide, ?_⟩
  intro s
  unfold Utils.desestruturar_horario
  rw [desestruturar_fold_phase1 s.data [] []]
  simp

/-- Claim C4: the first letter of `"2MT3"` is `M`, yet the decoded shift is the
later letter `T` — the first alphabetic character does not become the shift. -/
theorem C4_counterexample :
    "2MT3".data.find? Char.isAlpha = some 'M' ∧
    (Utils.desestruturar_horario "2MT3").turno = "T" ∧
    (Utils.desestruturar_horario "2MT3").turno ≠ "M" := by
  refine ⟨by decide, by decide, by decide⟩

/-- Claim C4 (amended): the first letter does terminate day accumulation, but
the decoded shift is the LAST letter of the string (every letter overwrites
it); with no letter at all the shift stays empty and every digit lands in
`dias`. -/
theorem C4_shift_is_last_letter (s : String) :
    (Utils.desestruturar_horario s).turno
      = ((s.data.filter Char.isAlpha).getLast?).elim "" String.singleton ∧
    (s.data.filter Char.isAlpha = [] →
      (Utils.desestruturar_horario s).turno = "" ∧
      (Utils.desestruturar_horario s).dias = (s.data.filter Char.isDigit).map digitVal) := by
  have hmain := desestruturar_fold_phase1 s.data [] []
  constructor
  · unfold Utils.desestruturar_horario
    rw [hmain]
  · intro hnone
    have htake : s.data.takeWhile (fun c => !c.isAlpha) = s.data := by
      rw [List.takeWhile_eq_self_iff]
      intro x hx
      have := List.filter_eq_nil_iff.mp hnone x hx
      simpa using this
    constructor
    · unfold Utils.desestruturar_horario
      rw [hmain]
      simp [hnone]
    · unfold Utils.desestruturar_horario
      rw [hmain]
      simp [htake]

/-- Witness for C4: the all-digit code `"123"` decodes to an empty shift with
every digit in `dias`. -/
theorem C4_witness :
    "123".data.filter Char.isAlpha = [] ∧
    (Utils.desestruturar_horario "123").turno = "" ∧
    (Utils.desestruturar_horario "123").dias = ("123".data.filter Char.isDigit).map digitVal := by
  have h := (C4_shift_is_last_letter "123").2 (by decide)
  exact ⟨by decide, h.1, h.2⟩

/-- Binding a successful `Except` value. -/
theorem except_ok_bind {α β : Type} (x : α) (f : α → Except PyError β) :
    (Except.ok x >>= f) = f x := rfl

/-- Every slot visited by the nested loops of `exibir_hierarquia` resolves its
day and shift labels without a dictionary error. -/
theorem slots_labels_all_ok :
    Terminal.slots.all (fun s => (Terminal.slot_labels s.1 s.2.1).isOk) = true := by
  decide

/-- The label lookups succeed for every slot of the loop nest. -/
theorem slot_labels_ok_of_mem {slot : Nat × String × Nat} (h : slot ∈ Terminal.slots) :
    ∃ l, Terminal.slot_labels slot.1 slot.2.1 = .ok l := by
  have hs := List.all_eq_true.mp slots_labels_all_ok slot h
  cases hres : Terminal.slot_labels slot.1 slot.2.1 with
  | ok l => exact ⟨l, rfl⟩
  | error e =>
    rw [hres] at hs
    simp [Except.isOk, Except.toBool] at hs

/-- The inner discipline loop of `exibir_hierarquia` for one slot never raises
and appends exactly the slot's rows. -/
theorem inner_fold_ok (slot : Nat × String × Nat) (l : String × String × Nat)
    (hl : Terminal.slot_labels slot.1 slot.2.1 = .ok l) (ds : List Saci.Disciplina) :
    ∀ acc : List Terminal.Entry,
      (ds.foldlM
        (fun acc d =>
          if Terminal.slotMatches slot.1 slot.2.1 slot.2.2 d then do
            let e ← Terminal.buildEntry slot.1 slot.2.1 slot.2.2 d
            pure (acc ++ [e])
          else pure acc)
        acc : Except PyError (List Terminal.Entry))
        = .ok (acc ++ Terminal.slotEntries ds slot) := by
  induction ds with
  | nil =>
    intro acc
    simp only [List.foldlM_nil, Terminal.slotEntries, List.filterMap_nil, List.append_nil]
    rfl
  | cons d ds ih =>
    intro acc
    rw [List.foldlM_cons]
    have hbe : Terminal.buildEntry slot.1 slot.2.1 slot.2.2 d
        = .ok ⟨slot.1, l.1, slot.2.1, l.2.1, l.2.2 + slot.2.2, d⟩ := by
      simp [Terminal.buildEntry, hl, Except.map]
    by_cases hm : Terminal.slotMatches slot.1 slot.2.1 slot.2.2 d = true
    · rw [if_pos hm, hbe, except_ok_bind, pure_bind, ih]
      simp [Terminal.slotEntries, List.filterMap_cons, hm, hbe]
    · rw [if_neg hm, pure_bind, ih]
      simp only [Terminal.slotEntries, List.filterMap_cons]
      rw [if_neg hm]

/-- The outer slot loop of `exibir_hierarquia` never raises and concatenates
the slots' rows in loop order. -/
theorem outer_fold_ok (ds : List Saci.Disciplina) :
    ∀ (L : List (Nat × String × Nat)),
      (∀ slot ∈ L, ∃ l, Terminal.slot_labels slot.1 slot.2.1 = .ok l) →
      ∀ acc : List Terminal.Entry,
        (L.foldlM
          (fun acc slot =>
            ds.foldlM
              (fun acc d =>
                if Terminal.slotMatches slot.1 slot.2.1 slot.2.2 d then do
                  let e ← Terminal.buildEntry slot.1 slot.2.1 slot.2.2 d
                  pure (acc ++ [e])
                else pure acc)
              acc)
          acc : Except PyError (List Terminal.Entry))
          = .ok (acc ++ L.flatMap (Terminal.slotEntries ds)) := by
  intro L
  induction L with
  | nil =>
    intro _ acc
    simp only [List.foldlM_nil, List.flatMap_nil, List.append_nil]
    rfl
  | cons slot L ih =>
    intro hok acc
    rw [List.foldlM_cons]
    obtain ⟨l, hl⟩ := hok slot (by simp)
    rw [inner_fold_ok slot l hl ds acc, except_ok_bind,
      ih (fun s hs => hok s (by simp [hs]))]
    simp [List.flatMap_cons, List.append_assoc]

/-- The display-order keys of the loop-nest slots are strictly increasing. -/
theorem slots_keys_sorted :
    Terminal.slots.Pairwise
      (fun s1 s2 => Terminal.lexLt (Terminal.slotSpecKey s1) (Terminal.slotSpecKey s2)) := by
  decide

/-- Every slot of the loop nest carries one of the four known shift letters. -/
theorem slots_turno_known :
    Terminal.slots.all (fun s => decide (s.2.1 ∈ (["M", "T", "N", "E"] : List String))) = true := by
  decide

/-- Every row contributed by a slot is built from one matching discipline and
carries the slot's day, shift and hour labels. -/
theorem slotEntries_mem {ds : List Saci.Disciplina} {slot : Nat × String × Nat}
    {e : Terminal.Entry} (l : String × String × Nat)
    (hl : Terminal.slot_labels slot.1 slot.2.1 = .ok l)
    (he : e ∈ Terminal.slotEntries ds slot) :
    ∃ d ∈ ds, Terminal.slotMatches slot.1 slot.2.1 slot.2.2 d = true ∧
      e = ⟨slot.1, l.1, slot.2.1, l.2.1, l.2.2 + slot.2.2, d⟩ := by
  obtain ⟨d, hd, hsome⟩ := List.mem_filterMap.mp he
  by_cases hm : Terminal.slotMatches slot.1 slot.2.1 slot.2.2 d = true
  · rw [if_pos hm] at hsome
    have hbe : Terminal.buildEntry slot.1 slot.2.1 slot.2.2 d
        = .ok ⟨slot.1, l.1, slot.2.1, l.2.1, l.2.2 + slot.2.2, d⟩ := by
      simp [Terminal.buildEntry, hl, Except.map]
    rw [hbe] at hsome
    simp only [Option.some.injEq] at hsome
    exact ⟨d, hd, hm, hsome.symm⟩
  · rw [if_neg hm] at hsome
    exact absurd hsome (by simp)

/-- The spec key of every row of a slot is the slot's key. -/
theorem slotEntries_key {ds : List Saci.Disciplina} {slot : Nat × String × Nat}
    {e : Terminal.Entry} (hslot : slot ∈ Terminal.slots)
    (he : e ∈ Terminal.slotEntries ds slot) :
    Terminal.entryKey e = Terminal.slotSpecKey slot := by
  obtain ⟨l, hl⟩ := slot_labels_ok_of_mem hslot
  obtain ⟨d, _, _, hee⟩ := slotEntries_mem l hl he
  rw [hee]
  simp only [Terminal.entryKey, Terminal.slotSpecKey, hl]

/-- A weak lexicographic bound from a strict one. -/
theorem lexLe_of_lexLt {x y : Nat × Nat × Nat} (h : Terminal.lexLt x y) : Terminal.lexLe x y := by
  rcases h with h | ⟨h1, h | ⟨h2, h3⟩⟩
  · exact Or.inl h
  · exact Or.inr ⟨h1, Or.inl h⟩
  · exact Or.inr ⟨h1, Or.inr ⟨h2, Nat.le_of_lt h3⟩⟩

/-- The weak lexicographic order is reflexive. -/
theorem lexLe_refl (x : Nat × Nat × Nat) : Terminal.lexLe x x :=
  Or.inr ⟨rfl, Or.inr ⟨rfl, Nat.le_refl _⟩⟩

/-- Claim C5 (amended): `exibir_hierarquia` realises the canonical order not
with a comparator but with its fixed loop nest — it never raises, its rows are
ordered by day ascending, then by the shift priority M=1, T=2, N=3, E=4, then
by hour ascending, and a code whose shift is not one of M, T, N, E is silently
omitted from the display rather than raising an error. -/
theorem C5_hierarchy_order :
    (∀ ds, Terminal.exibir_hierarquia_entries ds = .ok (Terminal.entries_pure ds)) ∧
    (∀ ds, (Terminal.entries_pure ds).Pairwise
        (fun a b => Terminal.lexLe (Terminal.entryKey a) (Terminal.entryKey b))) ∧
    (∀ ds (d : Saci.Disciplina), d ∈ ds →
      (Utils.desestruturar_horario d.horario).turno ∉ (["M", "T", "N", "E"] : List String) →
      (Terminal.entries_pure ds).filter (fun e => e.disciplina = d) = []) := by
  refine ⟨?_, ?_, ?_⟩
  · intro ds
    unfold Terminal.exibir_hierarquia_entries Terminal.entries_pure
    rw [outer_fold_ok ds Terminal.slots (fun s hs => slot_labels_ok_of_mem hs) []]
    simp
  · intro ds
    unfold Terminal.entries_pure
    rw [List.pairwise_flatMap]
    constructor
    · intro slot hslot
      apply List.pairwise_of_forall_mem_list
      intro a ha b hb
      rw [slotEntries_key hslot ha, slotEntries_key hslot hb]
      exact lexLe_refl _
    · refine List.Pairwise.imp_of_mem ?_ slots_keys_sorted
      intro s1 s2 h1 h2 hlt x hx y hy
      rw [slotEntries_key h1 hx, slotEntries_key h2 hy]
      exact lexLe_of_lexLt hlt
  · intro ds d hd hturno
    rw [List.filter_eq_nil_iff]
    intro e he
    simp only [decide_eq_true_eq]
    intro hed
    obtain ⟨slot, hslot, hes⟩ := List.mem_flatMap.mp he
    obtain ⟨l, hl⟩ := slot_labels_ok_of_mem hslot
    obtain ⟨d2, _, hm, hee⟩ := slotEntries_mem l hl hes
    have hd2 : d2 = d := by
      rw [hee] at hed
      exact hed
    have hknown := List.all_eq_true.mp slots_turno_known slot hslot
    simp only [decide_eq_true_eq] at hknown
    have hmatch : slot.2.1 = (Utils.desestruturar_horario d2.horario).turno := by
      simp only [Terminal.slotMatches, Bool.and_eq_true, decide_eq_true_eq] at hm
      exact hm.1.2
    rw [hmatch, hd2] at hknown
    exact hturno hknown

/-- Claim C5: a code with the unknown shift `X` does not raise in the
hierarchy display — the loop nest merely never visits it, so the whole display
succeeds with no rows. -/
theorem C5_counterexample :
    (Utils.desestruturar_horario discUnknownShift.horario).turno = "X" ∧
    Terminal.exibir_hierarquia_entries [discUnknownShift] = .ok [] := by
  constructor
  · decide
  · decide

/-- Witness for C5: the unknown-shift discipline is silently omitted. -/
theorem C5_witness :
    discUnknownShift ∈ [discUnknownShift] ∧
    (Utils.desestruturar_horario discUnknownShift.horario).turno
      ∉ (["M", "T", "N", "E"] : List String) ∧
    (Terminal.entries_pure [discUnknownShift]).filter
      (fun e => e.disciplina = discUnknownShift) = [] := by
  refine ⟨by decide, by decide,
    C5_hierarchy_order.2.2 [discUnknownShift] discUnknownShift (by decide) (by decide)⟩
